import Mathlib

/-!
Shallow embedding of the session-layer client of `eoweb`
(`src/client.ts`) and of the NPC death-fade animation
(`src/render/npc-death.ts`), together with theorems checking the
natural-language specification against the code.

Conventions of the embedding:
* Packet classes from `eolib` are modelled by the inductive `Packet`,
  keeping exactly the fields the client code assigns.
* `Client` is the mutable class state; each method becomes a pure
  function from the old state to a `MethodResult` holding the new
  state, the ordered list of observable outputs (packets handed to
  `bus.send`, events emitted on the emitter), and whether the call
  threw by dereferencing a `null` bus.
* JavaScript numbers that the code treats as integers are modelled by
  `Nat` (ids, session ids) or `Int` (animation tick counters that are
  clamped at zero).
-/

/-- The five file categories of `FileType` used by `Client.requestFile`
(`eolib`'s enum restricted to the variants the code matches on). -/
inductive FileType where
  | Ecf
  | Eif
  | Enf
  | Esf
  | Emf
deriving DecidableEq, Repr

/-- The five mutually exclusive payload shapes
`WelcomeAgreeClientPacket.FileTypeData*`, each carrying a `fileId`. -/
inductive FileTypeData where
  | ecf (fileId : Nat)
  | eif (fileId : Nat)
  | enf (fileId : Nat)
  | esf (fileId : Nat)
  | emf (fileId : Nat)
deriving DecidableEq, Repr

/-- The `fileId` field common to the five payload shapes. -/
def FileTypeData.fileId : FileTypeData → Nat
  | .ecf i => i
  | .eif i => i
  | .enf i => i
  | .esf i => i
  | .emf i => i

/-- Which `FileType` a payload shape belongs to. -/
def FileTypeData.variantOf : FileTypeData → FileType
  | .ecf _ => .Ecf
  | .eif _ => .Eif
  | .enf _ => .Enf
  | .esf _ => .Esf
  | .emf _ => .Emf

/-- Outgoing client packets built by `Client` methods, with exactly the
fields the code assigns before `bus.send`. -/
inductive Packet where
  | loginRequest (username : String) (password : String)
  | welcomeRequest (characterId : Nat)
  | warpTake (sessionId : Nat) (mapId : Nat)
  | warpAccept (sessionId : Nat) (mapId : Nat)
  | welcomeAgree (sessionId : Nat) (fileType : FileType) (fileTypeData : FileTypeData)
  | welcomeMsg (characterId : Nat) (sessionId : Nat)
  | profileRequest (playerId : Nat)
deriving DecidableEq, Repr

/-- The `sessionId` field of a packet, when the packet carries one. -/
def Packet.sessionIdOf : Packet → Option Nat
  | .warpTake s _ => some s
  | .warpAccept s _ => some s
  | .welcomeAgree s _ _ => some s
  | .welcomeMsg _ s => some s
  | _ => none

/-- Observable effects of a client method, in program order:
packets handed to `bus.send` and events published on the emitter
(only `debug` events matter to the claims below). -/
inductive Output where
  | send (p : Packet)
  | emitDebug (s : String)
deriving DecidableEq, Repr

/-- The packets a list of outputs hands to `bus.send`, in order. -/
def sentPackets (l : List Output) : List Packet :=
  l.filterMap fun o =>
    match o with
    | .send p => some p
    | _ => none

/-- The `debug` event payloads in a list of outputs, in order. -/
def debugMessages (l : List Output) : List String :=
  l.filterMap fun o =>
    match o with
    | .emitDebug s => some s
    | _ => none

/-- Every packet this list of outputs sends carries `s` as its
`sessionId` field (decidable form). -/
def stampedWith (l : List Output) (s : Nat) : Bool :=
  (sentPackets l).all fun p => p.sessionIdOf == some s

/-- The `fileTypeData` payload of a packet, when it is a
`WelcomeAgreeClientPacket`. -/
def Packet.agreeData : Packet → Option FileTypeData
  | .welcomeAgree _ _ d => some d
  | _ => none

/-- The `fileType` field of a packet, when it is a
`WelcomeAgreeClientPacket`. -/
def Packet.fileTypeOf : Packet → Option FileType
  | .welcomeAgree _ ft _ => some ft
  | _ => none

/-- The lifecycle enum `GameState` of `client.ts`. -/
inductive GameState where
  | Initial
  | Connected
  | Login
  | LoggedIn
  | InGame
deriving DecidableEq, Repr

/-- The local player's `Character`; only its `id` field is read by the
client methods under study (`enterGame`). -/
structure Character where
  id : Nat := 0
deriving DecidableEq, Repr

/-- The state of the `Client` class: its fields with the initializers
of `client.ts`. The packet bus is `Option Unit` (`PacketBus | null`,
opaque beyond its presence); the loaded `Emf` map is likewise opaque.
`unknownPlayerIds : Set<number>` becomes a `Finset Nat`;
`nearby.characters` is kept as the list of player ids it holds, which
is all the deduplication bookkeeping reads. -/
structure Client where
  bus : Option Unit := none
  playerId : Nat := 0
  character : Character := {}
  mapId : Nat := 5
  warpMapId : Nat := 0
  warpQueued : Bool := false
  state : GameState := .Initial
  sessionId : Nat := 0
  map : Option Unit := none
  downloadQueue : List (FileType × Nat) := []
  unknownPlayerIds : Finset Nat := ∅
  nearbyCharacterIds : List Nat := []
deriving DecidableEq

/-- A freshly constructed `Client`: the constructor leaves every field
at its initializer and sets `nearby` to empty lists (the asynchronous
resource loads and the emitter are external effects with no bearing on
these fields). -/
def Client.construct : Client := {}

/-- Result of calling a client method: the state of the object after
the call, the observable outputs in program order, and whether the
call threw a `TypeError` by dereferencing `bus.send` on a `null` bus.
When `threw` is true the state and outputs are those accumulated up to
the throw point. -/
structure MethodResult where
  client : Client
  outputs : List Output
  threw : Bool
deriving DecidableEq

/-- `Client.setBus`: stores the (non-null) bus and registers the packet
handlers (the registration functions live in excluded handler modules
and do not touch the fields modelled here). -/
def Client.setBus (c : Client) : Client :=
  { c with bus := some () }

/-- `Client.login`: builds a `LoginRequestClientPacket` with the given
username and password and sends it. -/
def Client.login (c : Client) (username password : String) : MethodResult :=
  let packet := Packet.loginRequest username password
  match c.bus with
  | none => { client := c, outputs := [], threw := true }
  | some _ => { client := c, outputs := [Output.send packet], threw := false }

/-- `Client.selectCharacter`: builds a `WelcomeRequestClientPacket`
with the given character id and sends it. -/
def Client.selectCharacter (c : Client) (characterId : Nat) : MethodResult :=
  let packet := Packet.welcomeRequest characterId
  match c.bus with
  | none => { client := c, outputs := [], threw := true }
  | some _ => { client := c, outputs := [Output.send packet], threw := false }

/-- `Client.requestWarpMap`: builds a `WarpTakeClientPacket` carrying
the current `sessionId` and the target map id and sends it. -/
def Client.requestWarpMap (c : Client) (id : Nat) : MethodResult :=
  let packet := Packet.warpTake c.sessionId id
  match c.bus with
  | none => { client := c, outputs := [], threw := true }
  | some _ => { client := c, outputs := [Output.send packet], threw := false }

/-- `Client.acceptWarp`: builds a `WarpAcceptClientPacket` carrying the
current `sessionId` and `warpMapId`, sends it, then sets `warpQueued`
to false. There is no guard on `warpQueued`. -/
def Client.acceptWarp (c : Client) : MethodResult :=
  let packet := Packet.warpAccept c.sessionId c.warpMapId
  match c.bus with
  | none => { client := c, outputs := [], threw := true }
  | some _ =>
    { client := { c with warpQueued := false }
      outputs := [Output.send packet]
      threw := false }

/-- The `debug` string the `requestFile` switch emits for each file
type. -/
def loadingMessage : FileType → String
  | .Ecf => "Loading classes.."
  | .Eif => "Loading items.."
  | .Enf => "Loading NPCs.."
  | .Esf => "Loading spells.."
  | .Emf => "Loading map.."

/-- `Client.requestFile`: builds a `WelcomeAgreeClientPacket` stamped
with the current `sessionId` and the given file type, selects the
payload shape by the file type and stores the id in its `fileId`,
emits a `debug` event naming the category being loaded, and sends the
packet. The `debug` emit happens inside the switch, before the send. -/
def Client.requestFile (c : Client) (fileType : FileType) (id : Nat) : MethodResult :=
  let fileTypeData : FileTypeData :=
    match fileType with
    | .Ecf => .ecf id
    | .Eif => .eif id
    | .Enf => .enf id
    | .Esf => .esf id
    | .Emf => .emf id
  let packet := Packet.welcomeAgree c.sessionId fileType fileTypeData
  match c.bus with
  | none =>
    { client := c, outputs := [Output.emitDebug (loadingMessage fileType)], threw := true }
  | some _ =>
    { client := c
      outputs := [Output.emitDebug (loadingMessage fileType), Output.send packet]
      threw := false }

/-- `Client.enterGame`: builds a `WelcomeMsgClientPacket` carrying the
current `character.id` and `sessionId` and sends it. -/
def Client.enterGame (c : Client) : MethodResult :=
  let packet := Packet.welcomeMsg c.character.id c.sessionId
  match c.bus with
  | none => { client := c, outputs := [], threw := true }
  | some _ => { client := c, outputs := [Output.send packet], threw := false }

/-- Modelled from the spec: the nearby-update handler (a handler module
outside `src/`, of which `src/client.ts` only declares the
`unknownPlayerIds` bookkeeping field). Per §4.4 of the spec, when a
nearby-update notification references a player id not present in
NearbyInfo, the handler checks membership in `unknownPlayerIds` before
adding the id and issuing a profile-fetch request, so an id already in
the set (or already known) triggers no request. -/
def Client.handleNearbyUpdate (c : Client) (id : Nat) : Client × List Output :=
  if id ∈ c.nearbyCharacterIds then
    (c, [])
  else if id ∈ c.unknownPlayerIds then
    (c, [])
  else
    ({ c with unknownPlayerIds := insert id c.unknownPlayerIds }
     , [Output.send (Packet.profileRequest id)])

/-- Modelled from the spec: receipt of the requested profile data (a
handler module outside `src/`). Per §4.4 of the spec, the id is
removed from `unknownPlayerIds` the moment its profile data is
received and the entity is merged into NearbyInfo. -/
def Client.handleProfileArrival (c : Client) (id : Nat) : Client :=
  { c with
    unknownPlayerIds := c.unknownPlayerIds.erase id
    nearbyCharacterIds := id :: c.nearbyCharacterIds }

/-- Process `n` consecutive nearby-update notifications that all
reference the same player id, returning the final client state and the
total number of profile-fetch packets sent. -/
def Client.processNearbyUpdates (c : Client) (id : Nat) : Nat → Client × Nat
  | 0 => (c, 0)
  | n + 1 =>
    let r := c.handleNearbyUpdate id
    let rest := r.1.processNearbyUpdates id n
    (rest.1, (sentPackets r.2).length + rest.2)

/-- The state of an `NpcDeathAnimation` (`src/render/npc-death.ts`):
its tick counter, a JavaScript number the code treats as an integer.
The constant `NPC_DEATH_TICKS` lives in `consts.ts`, which is not part
of the sources under study; it is modelled as a parameter. -/
structure NpcDeathAnimation where
  ticks : Int
deriving DecidableEq, Repr

/-- The `NpcDeathAnimation` constructor: starts the counter at
`NPC_DEATH_TICKS` (taken as a parameter, see above). -/
def NpcDeathAnimation.construct (NPC_DEATH_TICKS : Int) : NpcDeathAnimation :=
  { ticks := NPC_DEATH_TICKS }

/-- `NpcDeathAnimation.tick`: `this.ticks = Math.max(this.ticks - 1, 0)`. -/
def NpcDeathAnimation.tick (a : NpcDeathAnimation) : NpcDeathAnimation :=
  { ticks := max (a.ticks - 1) 0 }

/-- The death-fade opacity `render` assigns to `ctx.globalAlpha`:
`this.ticks / NPC_DEATH_TICKS`, an exact rational here. -/
def NpcDeathAnimation.opacity (a : NpcDeathAnimation) (NPC_DEATH_TICKS : Int) : ℚ :=
  (a.ticks : ℚ) / (NPC_DEATH_TICKS : ℚ)

/-! ## Theorems -/

/-- C1 (counterexample): on a client with a bus attached and
`warpQueued = false`, `acceptWarp()` does send an outgoing message —
the code has no guard on `warpQueued`. -/
theorem claim_C1_counterexample :
    ({ bus := some () } : Client).warpQueued = false ∧
    sentPackets (Client.acceptWarp { bus := some () }).outputs ≠ [] := by
  decide

/-- C1 (amended): for every client state with a bus attached in which
`warpQueued` is false, `acceptWarp()` nevertheless sends exactly one
acceptance message, carrying the current `sessionId` and `warpMapId`,
and leaves `warpMapId` unchanged. -/
theorem claim_C1_amended (c : Client) (hq : c.warpQueued = false)
    (hb : c.bus = some ()) :
    sentPackets (c.acceptWarp).outputs = [Packet.warpAccept c.sessionId c.warpMapId] ∧
    (c.acceptWarp).client.warpMapId = c.warpMapId := by
  simp [Client.acceptWarp, hb, sentPackets]

/-- C1 (witness for the amended theorem). -/
theorem claim_C1_witness :
    sentPackets (Client.acceptWarp { bus := some (), sessionId := 9, warpMapId := 3 }).outputs
      = [Packet.warpAccept 9 3] ∧
    (Client.acceptWarp { bus := some (), sessionId := 9, warpMapId := 3 }).client.warpMapId = 3 :=
  claim_C1_amended { bus := some (), sessionId := 9, warpMapId := 3 } rfl rfl

/-- C2: each session-scoped outgoing message — built by
`requestWarpMap`, `acceptWarp`, `requestFile` and `enterGame` —
carries as its `sessionId` field the client's `sessionId` at call
time. -/
theorem claim_C2 (c : Client) (mapId fileId : Nat) (ft : FileType)
    (hb : c.bus = some ()) :
    stampedWith (c.requestWarpMap mapId).outputs c.sessionId = true ∧
    stampedWith (c.acceptWarp).outputs c.sessionId = true ∧
    stampedWith (c.requestFile ft fileId).outputs c.sessionId = true ∧
    stampedWith (c.enterGame).outputs c.sessionId = true := by
  refine ⟨?_, ?_, ?_, ?_⟩ <;>
    simp [Client.requestWarpMap, Client.acceptWarp, Client.requestFile, Client.enterGame,
      hb, stampedWith, sentPackets, Packet.sessionIdOf]

/-- C2 (witness). -/
theorem claim_C2_witness :
    stampedWith (Client.requestWarpMap { bus := some (), sessionId := 4 } 7).outputs 4 = true ∧
    stampedWith (Client.acceptWarp { bus := some (), sessionId := 4 }).outputs 4 = true ∧
    stampedWith (Client.requestFile { bus := some (), sessionId := 4 } .Emf 5).outputs 4 = true ∧
    stampedWith (Client.enterGame { bus := some (), sessionId := 4 }).outputs 4 = true :=
  claim_C2 { bus := some (), sessionId := 4 } 7 5 .Emf rfl

/-- C4: with `warpQueued` true (and a bus attached), `acceptWarp()`
sends exactly one acceptance message whose `sessionId` equals the
client's `sessionId` and whose `mapId` equals the client's
`warpMapId`, and afterwards `warpQueued` is false. -/
theorem claim_C4 (c : Client) (hq : c.warpQueued = true)
    (hb : c.bus = some ()) :
    sentPackets (c.acceptWarp).outputs = [Packet.warpAccept c.sessionId c.warpMapId] ∧
    (c.acceptWarp).client.warpQueued = false := by
  simp [Client.acceptWarp, hb, sentPackets]

/-- C4 (witness). -/
theorem claim_C4_witness :
    sentPackets
        (Client.acceptWarp
          { bus := some (), warpQueued := true, sessionId := 11, warpMapId := 7 }).outputs
      = [Packet.warpAccept 11 7] ∧
    (Client.acceptWarp
        { bus := some (), warpQueued := true, sessionId := 11, warpMapId := 7 }).client.warpQueued
      = false :=
  claim_C4 { bus := some (), warpQueued := true, sessionId := 11, warpMapId := 7 } rfl rfl

/-- C5: `login(username, password)` sends exactly one login-request
message carrying the given username and password, and leaves the
whole client state (in particular `state` and all session fields)
unchanged. -/
theorem claim_C5 (c : Client) (username password : String)
    (hb : c.bus = some ()) :
    sentPackets (c.login username password).outputs = [Packet.loginRequest username password] ∧
    (c.login username password).client = c := by
  simp [Client.login, hb, sentPackets]

/-- C5 (witness). -/
theorem claim_C5_witness :
    sentPackets (Client.login { bus := some (), state := .Connected } "bob" "pw").outputs
      = [Packet.loginRequest "bob" "pw"] ∧
    (Client.login { bus := some (), state := .Connected } "bob" "pw").client
      = { bus := some (), state := .Connected } :=
  claim_C5 { bus := some (), state := .Connected } "bob" "pw" rfl

/-- C7: `enterGame()` sends exactly one game-entry confirmation
carrying the current `character.id` and `sessionId`, and leaves the
whole client state unchanged (in particular it does not set `state`
to `InGame`; that transition happens only in a response handler). -/
theorem claim_C7 (c : Client) (hb : c.bus = some ()) :
    sentPackets (c.enterGame).outputs = [Packet.welcomeMsg c.character.id c.sessionId] ∧
    (c.enterGame).client = c := by
  simp [Client.enterGame, hb, sentPackets]

/-- C7 (witness). -/
theorem claim_C7_witness :
    sentPackets
        (Client.enterGame
          { bus := some (), character := { id := 21 }, sessionId := 8 }).outputs
      = [Packet.welcomeMsg 21 8] ∧
    (Client.enterGame { bus := some (), character := { id := 21 }, sessionId := 8 }).client
      = { bus := some (), character := { id := 21 }, sessionId := 8 } :=
  claim_C7 { bus := some (), character := { id := 21 }, sessionId := 8 } rfl

/-- C8: `requestWarpMap(mapId)` sends exactly one warp-initiation
message carrying the given map id and current `sessionId`, and leaves
the local map state — `mapId`, `map`, `warpMapId`, `warpQueued` —
unchanged. -/
theorem claim_C8 (c : Client) (mapId : Nat) (hb : c.bus = some ()) :
    sentPackets (c.requestWarpMap mapId).outputs = [Packet.warpTake c.sessionId mapId] ∧
    (c.requestWarpMap mapId).client.mapId = c.mapId ∧
    (c.requestWarpMap mapId).client.map = c.map ∧
    (c.requestWarpMap mapId).client.warpMapId = c.warpMapId ∧
    (c.requestWarpMap mapId).client.warpQueued = c.warpQueued := by
  simp [Client.requestWarpMap, hb, sentPackets]

/-- C8 (witness). -/
theorem claim_C8_witness :
    sentPackets (Client.requestWarpMap { bus := some (), sessionId := 2 } 7).outputs
      = [Packet.warpTake 2 7] ∧
    (Client.requestWarpMap { bus := some (), sessionId := 2 } 7).client.mapId
      = ({ bus := some (), sessionId := 2 } : Client).mapId ∧
    (Client.requestWarpMap { bus := some (), sessionId := 2 } 7).client.map
      = ({ bus := some (), sessionId := 2 } : Client).map ∧
    (Client.requestWarpMap { bus := some (), sessionId := 2 } 7).client.warpMapId
      = ({ bus := some (), sessionId := 2 } : Client).warpMapId ∧
    (Client.requestWarpMap { bus := some (), sessionId := 2 } 7).client.warpQueued
      = ({ bus := some (), sessionId := 2 } : Client).warpQueued :=
  claim_C8 { bus := some (), sessionId := 2 } 7 rfl

/-- C6: `requestFile(resourceKind, identifier)` builds exactly one
agree message whose payload variant is the one selected by the
resource kind, with the payload's `fileId` equal to the identifier,
and emits exactly one `debug` event naming the resource category. -/
theorem claim_C6 (c : Client) (ft : FileType) (id : Nat)
    (hb : c.bus = some ()) :
    (sentPackets (c.requestFile ft id).outputs).length = 1 ∧
    (sentPackets (c.requestFile ft id).outputs).head?.bind Packet.fileTypeOf = some ft ∧
    ((sentPackets (c.requestFile ft id).outputs).head?.bind Packet.agreeData).map
        FileTypeData.variantOf = some ft ∧
    ((sentPackets (c.requestFile ft id).outputs).head?.bind Packet.agreeData).map
        FileTypeData.fileId = some id ∧
    debugMessages (c.requestFile ft id).outputs = [loadingMessage ft] := by
  cases ft <;>
    simp [Client.requestFile, hb, sentPackets, debugMessages, Packet.fileTypeOf,
      Packet.agreeData, FileTypeData.variantOf, FileTypeData.fileId, loadingMessage]

/-- C6 (witness). -/
theorem claim_C6_witness :
    (sentPackets (Client.requestFile { bus := some (), sessionId := 6 } .Enf 3).outputs).length
      = 1 ∧
    (sentPackets (Client.requestFile { bus := some (), sessionId := 6 } .Enf 3).outputs).head?.bind
        Packet.fileTypeOf = some .Enf ∧
    ((sentPackets
          (Client.requestFile { bus := some (), sessionId := 6 } .Enf 3).outputs).head?.bind
        Packet.agreeData).map FileTypeData.variantOf = some .Enf ∧
    ((sentPackets
          (Client.requestFile { bus := some (), sessionId := 6 } .Enf 3).outputs).head?.bind
        Packet.agreeData).map FileTypeData.fileId = some 3 ∧
    debugMessages (Client.requestFile { bus := some (), sessionId := 6 } .Enf 3).outputs
      = [loadingMessage .Enf] :=
  claim_C6 { bus := some (), sessionId := 6 } .Enf 3 rfl

/-- C9: a freshly constructed client has a `null` bus; with a `null`
bus every one of the six sending methods throws at the `bus.send`
dereference and sends nothing, and after `setBus` (non-null bus) the
error branch is unreachable: none of the methods throws. -/
theorem claim_C9 (c : Client) (u pw : String) (cid mid fid : Nat) (ft : FileType) :
    Client.construct.bus = none ∧
    (c.setBus).bus = some () ∧
    (c.bus = none →
      ((c.login u pw).threw = true ∧ sentPackets (c.login u pw).outputs = []) ∧
      ((c.selectCharacter cid).threw = true ∧
        sentPackets (c.selectCharacter cid).outputs = []) ∧
      ((c.requestWarpMap mid).threw = true ∧
        sentPackets (c.requestWarpMap mid).outputs = []) ∧
      ((c.acceptWarp).threw = true ∧ sentPackets (c.acceptWarp).outputs = []) ∧
      ((c.requestFile ft fid).threw = true ∧
        sentPackets (c.requestFile ft fid).outputs = []) ∧
      ((c.enterGame).threw = true ∧ sentPackets (c.enterGame).outputs = [])) ∧
    (c.bus ≠ none →
      (c.login u pw).threw = false ∧
      (c.selectCharacter cid).threw = false ∧
      (c.requestWarpMap mid).threw = false ∧
      (c.acceptWarp).threw = false ∧
      (c.requestFile ft fid).threw = false ∧
      (c.enterGame).threw = false) := by
  refine ⟨rfl, rfl, ?_, ?_⟩
  · intro h
    simp [Client.login, Client.selectCharacter, Client.requestWarpMap, Client.acceptWarp,
      Client.requestFile, Client.enterGame, h, sentPackets]
  · intro h
    cases hb : c.bus with
    | none => exact absurd hb h
    | some b =>
      cases b
      simp [Client.login, Client.selectCharacter, Client.requestWarpMap, Client.acceptWarp,
        Client.requestFile, Client.enterGame, hb]

/-- C9 (witness). -/
theorem claim_C9_witness :
    (Client.construct.login "bob" "pw").threw = true ∧
    ((Client.construct.setBus).login "bob" "pw").threw = false :=
  ⟨((claim_C9 Client.construct "bob" "pw" 0 0 0 FileType.Ecf).2.2.1 rfl).1.1,
   ((claim_C9 Client.construct.setBus "bob" "pw" 0 0 0 FileType.Ecf).2.2.2
      (by decide)).1⟩

/-- One nearby-update step sends at most one profile-fetch packet. -/
theorem handleNearbyUpdate_sends_le_one (c : Client) (id : Nat) :
    (sentPackets (c.handleNearbyUpdate id).2).length ≤ 1 := by
  by_cases h1 : id ∈ c.nearbyCharacterIds
  · simp [Client.handleNearbyUpdate, h1, sentPackets]
  · by_cases h2 : id ∈ c.unknownPlayerIds <;>
      simp [Client.handleNearbyUpdate, h1, h2, sentPackets]

/-- After one nearby-update step for `id`, the id is tracked: it is in
NearbyInfo or in `unknownPlayerIds`. -/
theorem handleNearbyUpdate_post (c : Client) (id : Nat) :
    id ∈ (c.handleNearbyUpdate id).1.nearbyCharacterIds ∨
    id ∈ (c.handleNearbyUpdate id).1.unknownPlayerIds := by
  by_cases h1 : id ∈ c.nearbyCharacterIds
  · simp [Client.handleNearbyUpdate, h1]
  · by_cases h2 : id ∈ c.unknownPlayerIds <;>
      simp [Client.handleNearbyUpdate, h1, h2]

/-- A nearby-update step for an already tracked id changes nothing and
sends nothing. -/
theorem handleNearbyUpdate_absorbed (c : Client) (id : Nat)
    (h : id ∈ c.nearbyCharacterIds ∨ id ∈ c.unknownPlayerIds) :
    (c.handleNearbyUpdate id).1 = c ∧ (c.handleNearbyUpdate id).2 = [] := by
  rcases h with h | h
  · simp [Client.handleNearbyUpdate, h]
  · by_cases h1 : id ∈ c.nearbyCharacterIds <;>
      simp [Client.handleNearbyUpdate, h1, h]

/-- Processing any number of nearby updates for an already tracked id
sends no profile-fetch packet at all. -/
theorem processNearbyUpdates_absorbed (id : Nat) (n : Nat) :
    ∀ c : Client, id ∈ c.nearbyCharacterIds ∨ id ∈ c.unknownPlayerIds →
      (c.processNearbyUpdates id n).2 = 0 := by
  induction n with
  | zero =>
    intro c _
    simp [Client.processNearbyUpdates]
  | succ n ih =>
    intro c h
    have habs := handleNearbyUpdate_absorbed c id h
    simp [Client.processNearbyUpdates, habs.1, habs.2, ih c h, sentPackets]

/-- C3: across any run of `n ≥ 1` nearby-update notifications that all
reference the same player id, at most one profile-fetch packet is
sent; a fetch is issued only when the id is not already in
`unknownPlayerIds`; and the id is removed from `unknownPlayerIds`
when its profile data arrives. -/
theorem claim_C3 (c : Client) (id : Nat) (n : Nat) (hn : 1 ≤ n) :
    (c.processNearbyUpdates id n).2 ≤ 1 ∧
    (id ∈ c.unknownPlayerIds → (c.handleNearbyUpdate id).2 = []) ∧
    id ∉ (c.handleProfileArrival id).unknownPlayerIds := by
  refine ⟨?_, ?_, ?_⟩
  · obtain ⟨m, rfl⟩ : ∃ m, n = m + 1 := ⟨n - 1, by omega⟩
    have hpost := handleNearbyUpdate_post c id
    have h0 := processNearbyUpdates_absorbed id m _ hpost
    have hlen := handleNearbyUpdate_sends_le_one c id
    simp only [Client.processNearbyUpdates, h0]
    omega
  · intro h
    by_cases h1 : id ∈ c.nearbyCharacterIds <;>
      simp [Client.handleNearbyUpdate, h1, h]
  · simp [Client.handleProfileArrival]

/-- C3 (witness). -/
theorem claim_C3_witness :
    (Client.construct.processNearbyUpdates 42 2).2 ≤ 1 ∧
    (42 ∈ Client.construct.unknownPlayerIds →
      (Client.construct.handleNearbyUpdate 42).2 = []) ∧
    42 ∉ (Client.construct.handleProfileArrival 42).unknownPlayerIds :=
  claim_C3 Client.construct 42 2 (by decide)

/-- Iterating `tick` from a nonnegative counter clamps at zero:
after `n` ticks the counter is `max (start - n) 0`. -/
theorem tick_iterate (n : Nat) :
    ∀ a : NpcDeathAnimation, 0 ≤ a.ticks →
      (NpcDeathAnimation.tick^[n] a).ticks = max (a.ticks - n) 0 := by
  induction n with
  | zero =>
    intro a h
    simp
    omega
  | succ n ih =>
    intro a h
    rw [Function.iterate_succ_apply, ih a.tick (le_max_right _ _)]
    simp only [NpcDeathAnimation.tick]
    push_cast
    omega

/-- C10: the death animation starts its counter at `NPC_DEATH_TICKS`
(a positive constant), each `tick()` decrements it but never below
zero, so after `n` ticks it equals `max (NPC_DEATH_TICKS - n) 0`, and
the fade opacity `ticks / NPC_DEATH_TICKS` used by `render` always
lies in `[0, 1]`. -/
theorem claim_C10 (NPC_DEATH_TICKS : Int) (h : 0 < NPC_DEATH_TICKS) (n : Nat) :
    (NpcDeathAnimation.construct NPC_DEATH_TICKS).ticks = NPC_DEATH_TICKS ∧
    (NpcDeathAnimation.tick^[n] (NpcDeathAnimation.construct NPC_DEATH_TICKS)).ticks
      = max (NPC_DEATH_TICKS - n) 0 ∧
    0 ≤ (NpcDeathAnimation.tick^[n]
          (NpcDeathAnimation.construct NPC_DEATH_TICKS)).opacity NPC_DEATH_TICKS ∧
    (NpcDeathAnimation.tick^[n]
          (NpcDeathAnimation.construct NPC_DEATH_TICKS)).opacity NPC_DEATH_TICKS ≤ 1 := by
  have hticks := tick_iterate n (NpcDeathAnimation.construct NPC_DEATH_TICKS) h.le
  refine ⟨rfl, hticks, ?_, ?_⟩
  · unfold NpcDeathAnimation.opacity
    apply div_nonneg
    · rw [hticks]
      exact_mod_cast le_max_right _ _
    · exact_mod_cast h.le
  · unfold NpcDeathAnimation.opacity
    rw [div_le_one (by exact_mod_cast h), hticks]
    have hle : max ((NpcDeathAnimation.construct NPC_DEATH_TICKS).ticks - n) 0
        ≤ NPC_DEATH_TICKS := by
      have : (NpcDeathAnimation.construct NPC_DEATH_TICKS).ticks = NPC_DEATH_TICKS := rfl
      omega
    exact_mod_cast hle

/-- C10 (witness). -/
theorem claim_C10_witness :
    (NpcDeathAnimation.construct 6).ticks = 6 ∧
    (NpcDeathAnimation.tick^[2] (NpcDeathAnimation.construct 6)).ticks
      = max ((6 : Int) - ((2 : Nat) : Int)) 0 ∧
    0 ≤ (NpcDeathAnimation.tick^[2] (NpcDeathAnimation.construct 6)).opacity 6 ∧
    (NpcDeathAnimation.tick^[2] (NpcDeathAnimation.construct 6)).opacity 6 ≤ 1 :=
  claim_C10 6 (by norm_num) 2
